import Mathlib

/-!
Verification of the boxing application core (boxers_model.py and ring_model.py).

The store of boxer records (the SQLite `boxers` table) is modelled as a list of
rows; every database-touching function is translated into explicit state
passing, returning a pair of the Python result (with `Except` for a raised
`ValueError`) and the store after the call.  Python ints are `ℤ`, floats are
idealised as `ℚ` (and the logistic transform over them as `ℝ`), and the fight
and win counters (initialised to 0 and only ever incremented) are `ℕ`.
-/

/-- Messages of the `ValueError`s raised by the code, one constructor per
distinct message format of the source, with the exact text produced by
`PyMsg.render`. -/
inductive PyMsg where
  | invalidWeight (w : ℤ)
  | invalidHeight (h : ℤ)
  | invalidReach (r : ℚ)
  | invalidAge (a : ℤ)
  | duplicateName (name : String)
  | idNotFound (id : ℤ)
  | nameNotFound (name : String)
  | invalidSortBy (s : String)
  | invalidResult (res : String)
  | weightClassInvalid (w : ℤ)
  | ringFull
  | needTwoBoxers
  | unpackError
  deriving DecidableEq

/-- Exact message strings of the f-strings in the source. -/
def PyMsg.render : PyMsg → String
  | .invalidWeight w => "Invalid weight: " ++ toString w ++ ". Must be at least 125."
  | .invalidHeight h => "Invalid height: " ++ toString h ++ ". Must be greater than 0."
  | .invalidReach r => "Invalid reach: " ++ toString r ++ ". Must be greater than 0."
  | .invalidAge a => "Invalid age: " ++ toString a ++ ". Must be between 18 and 40."
  | .duplicateName name => "Boxer with name \x27" ++ name ++ "\x27 already exists"
  | .idNotFound id => "Boxer with ID " ++ toString id ++ " not found."
  | .nameNotFound name => "Boxer \x27" ++ name ++ "\x27 not found."
  | .invalidSortBy s => "Invalid sort_by parameter: " ++ s
  | .invalidResult res => "Invalid result: " ++ res ++ ". Expected \x27win\x27 or \x27loss\x27."
  | .weightClassInvalid w => "Invalid weight: " ++ toString w ++ ". Weight must be at least 125."
  | .ringFull => "Ring is full, cannot add more boxers."
  | .needTwoBoxers => "There must be two boxers to start a fight."
  | .unpackError => "too many values to unpack (expected 2)"

/-- Errors raised by the modelled code (`ValueError`s of the Python source). -/
inductive Err where
  | valueError (m : PyMsg)
  deriving DecidableEq

/-- Message text of an error. -/
def Err.render : Err → String
  | .valueError m => m.render

/-- One row of the `boxers` table. -/
structure BoxerRow where
  id : ℤ
  name : String
  weight : ℤ
  height : ℤ
  reach : ℚ
  age : ℤ
  fights : ℕ
  wins : ℕ
  deriving DecidableEq

/-- The `boxers` table. -/
structure Db where
  rows : List BoxerRow
  deriving DecidableEq

/-- get_weight_class (boxers_model.py): weight bands, `ValueError` below 125. -/
def get_weight_class (weight : ℤ) : Except Err String :=
  if 203 ≤ weight then .ok "HEAVYWEIGHT"
  else if 166 ≤ weight then .ok "MIDDLEWEIGHT"
  else if 133 ≤ weight then .ok "LIGHTWEIGHT"
  else if 125 ≤ weight then .ok "FEATHERWEIGHT"
  else .error (.valueError (.weightClassInvalid weight))

/-- The Boxer dataclass: `weight_class` is assigned by `__post_init__`. -/
structure Boxer where
  id : ℤ
  name : String
  weight : ℤ
  height : ℤ
  reach : ℚ
  age : ℤ
  weight_class : String
  deriving DecidableEq

/-- Construction of a `Boxer` value: `__post_init__` computes the weight class
from the weight and raises whenever `get_weight_class` does. -/
def mkBoxer (id : ℤ) (name : String) (weight height : ℤ) (reach : ℚ) (age : ℤ) :
    Except Err Boxer :=
  match get_weight_class weight with
  | .ok wc => .ok ⟨id, name, weight, height, reach, age, wc⟩
  | .error e => .error e

/-- The rowid SQLite assigns to a newly inserted row: one more than the largest
id in use. -/
def nextId (db : Db) : ℤ := (db.rows.map BoxerRow.id).foldr max 0 + 1

/-- Result of the INSERT at the store: either the new table, or the uniqueness
violation on `name` (sqlite3.IntegrityError). -/
inductive InsertResult where
  | inserted (db : Db)
  | integrityError

/-- INSERT INTO boxers: the store itself enforces uniqueness of `name`; counters
start at 0. -/
def dbInsert (db : Db) (name : String) (weight height : ℤ) (reach : ℚ) (age : ℤ) :
    InsertResult :=
  if db.rows.any (fun q => q.name = name) then .integrityError
  else .inserted ⟨db.rows ++ [⟨nextId db, name, weight, height, reach, age, 0, 0⟩]⟩

/-- Error raised by the explicit pre-insert existence check of create_boxer
(boxers_model.py line 94). -/
def precheckDuplicateErr (name : String) : Err := .valueError (.duplicateName name)

/-- Error raised by the `except sqlite3.IntegrityError` handler of create_boxer
(boxers_model.py line 105). -/
def integrityDuplicateErr (name : String) : Err := .valueError (.duplicateName name)

/-- create_boxer (boxers_model.py): validates, pre-checks the name, inserts.
The Python function is annotated `-> None` and ends without a `return`, so its
result is `None`; the result slot is modelled as `Option ℤ` (the identifier the
spec says is returned) and the function always produces `none` on success. -/
def create_boxer (db : Db) (name : String) (weight height : ℤ) (reach : ℚ) (age : ℤ) :
    Except Err (Option ℤ) × Db :=
  if weight < 125 then (.error (.valueError (.invalidWeight weight)), db)
  else if height ≤ 0 then (.error (.valueError (.invalidHeight height)), db)
  else if reach ≤ 0 then (.error (.valueError (.invalidReach reach)), db)
  else if ¬(18 ≤ age ∧ age ≤ 40) then (.error (.valueError (.invalidAge age)), db)
  else if db.rows.any (fun q => q.name = name) then (.error (precheckDuplicateErr name), db)
  else
    match dbInsert db name weight height reach age with
    | .inserted db2 => (.ok none, db2)
    | .integrityError => (.error (integrityDuplicateErr name), db)

/-- delete_boxer (boxers_model.py): existence check, then DELETE. -/
def delete_boxer (db : Db) (boxer_id : ℤ) : Except Err Unit × Db :=
  if db.rows.any (fun q => q.id = boxer_id) then
    (.ok (), ⟨db.rows.filter (fun q => ¬(q.id = boxer_id))⟩)
  else (.error (.valueError (.idNotFound boxer_id)), db)

/-- UPDATE boxers SET fights = fights + 1, wins = wins + 1 WHERE id = ?. -/
def winStep (boxer_id : ℤ) (q : BoxerRow) : BoxerRow :=
  if q.id = boxer_id then ⟨q.id, q.name, q.weight, q.height, q.reach, q.age, q.fights + 1, q.wins + 1⟩
  else q

/-- UPDATE boxers SET fights = fights + 1 WHERE id = ?. -/
def lossStep (boxer_id : ℤ) (q : BoxerRow) : BoxerRow :=
  if q.id = boxer_id then ⟨q.id, q.name, q.weight, q.height, q.reach, q.age, q.fights + 1, q.wins⟩
  else q

/-- update_boxer_stats (boxers_model.py): validates the result token, checks the
id exists, then increments the counters of the matching row. -/
def update_boxer_stats (db : Db) (boxer_id : ℤ) (result : String) : Except Err Unit × Db :=
  if ¬(result = "win" ∨ result = "loss") then
    (.error (.valueError (.invalidResult result)), db)
  else if db.rows.any (fun q => q.id = boxer_id) then
    if result = "win" then (.ok (), ⟨db.rows.map (winStep boxer_id)⟩)
    else (.ok (), ⟨db.rows.map (lossStep boxer_id)⟩)
  else (.error (.valueError (.idNotFound boxer_id)), db)

/-- get_boxer_by_id (boxers_model.py): SELECT by id, then construct the Boxer
(whose `__post_init__` may itself raise). -/
def get_boxer_by_id (db : Db) (boxer_id : ℤ) : Except Err Boxer :=
  match db.rows.find? (fun q => q.id = boxer_id) with
  | some row => mkBoxer row.id row.name row.weight row.height row.reach row.age
  | none => .error (.valueError (.idNotFound boxer_id))

/-- get_boxer_by_name (boxers_model.py): SELECT by name, then construct the
Boxer. -/
def get_boxer_by_name (db : Db) (boxer_name : String) : Except Err Boxer :=
  match db.rows.find? (fun q => q.name = boxer_name) with
  | some row => mkBoxer row.id row.name row.weight row.height row.reach row.age
  | none => .error (.valueError (.nameNotFound boxer_name))

/-- Round of Python to the nearest integer, halves to the even neighbour. -/
def roundHalfEven (q : ℚ) : ℤ :=
  let f : ℤ := ⌊q⌋
  if q - f < 1/2 then f
  else if 1/2 < q - f then f + 1
  else if f % 2 = 0 then f else f + 1

/-- Round of Python round(x, 1): one decimal place, halves to even. -/
def pyRound1 (q : ℚ) : ℚ := (roundHalfEven (q * 10) : ℚ) / 10

/-- The SQL column (wins * 1.0 / fights) AS win_pct. -/
def winPctQ (q : BoxerRow) : ℚ := (q.wins : ℚ) / (q.fights : ℚ)

/-- One dictionary of the leaderboard list. -/
structure LBEntry where
  id : ℤ
  name : String
  weight : ℤ
  height : ℤ
  reach : ℚ
  age : ℤ
  weight_class : String
  fights : ℕ
  wins : ℕ
  win_pct : ℚ
  deriving DecidableEq

/-- Loop body of get_leaderboard: builds one dictionary from a row, computing
the weight class (which may raise) and the rendered percentage. -/
def rowToEntry (q : BoxerRow) : Except Err LBEntry :=
  match get_weight_class q.weight with
  | .error e => .error e
  | .ok wc =>
      .ok ⟨q.id, q.name, q.weight, q.height, q.reach, q.age, wc, q.fights, q.wins,
        pyRound1 (winPctQ q * 100)⟩

/-- ORDER BY wins DESC. -/
def winsDesc (a b : BoxerRow) : Prop := b.wins ≤ a.wins

instance : DecidableRel winsDesc := fun a b => inferInstanceAs (Decidable (b.wins ≤ a.wins))

/-- ORDER BY win_pct DESC. -/
def winPctDesc (a b : BoxerRow) : Prop := winPctQ b ≤ winPctQ a

instance : DecidableRel winPctDesc := fun a b => inferInstanceAs (Decidable (winPctQ b ≤ winPctQ a))

/-- WHERE fights > 0. -/
def filteredRows (db : Db) : List BoxerRow := db.rows.filter (fun q => 0 < q.fights)

/-- get_leaderboard (boxers_model.py): validates the sort key, selects the rows
with fights > 0 ordered descending by the key, and maps each row to its
dictionary. -/
def get_leaderboard (db : Db) (sort_by : String) : Except Err (List LBEntry) :=
  if sort_by = "win_pct" then
    (List.insertionSort winPctDesc (filteredRows db)).mapM rowToEntry
  else if sort_by = "wins" then
    (List.insertionSort winsDesc (filteredRows db)).mapM rowToEntry
  else .error (.valueError (.invalidSortBy sort_by))

/-- RingModel (ring_model.py): the list of boxers currently in the ring. -/
structure RingModel where
  ring : List Boxer
  deriving DecidableEq

/-- RingModel.enter_ring: capacity check, then append.  (The isinstance check
of the source is enforced by the type of the argument.) -/
def enter_ring (s : RingModel) (b : Boxer) : Except Err Unit × RingModel :=
  if 2 ≤ s.ring.length then (.error (.valueError .ringFull), s)
  else (.ok (), ⟨s.ring ++ [b]⟩)

/-- RingModel.clear_ring: no-op when empty, otherwise empties the ring. -/
def clear_ring (s : RingModel) : RingModel :=
  if s.ring.isEmpty then s else ⟨[]⟩

/-- RingModel.get_boxers: returns the internal list. -/
def get_boxers (s : RingModel) : List Boxer := s.ring

/-- Age modifier of RingModel.get_fighting_skill. -/
def ageModifier (age : ℤ) : ℤ :=
  if age < 25 then -1 else if 35 < age then -2 else 0

/-- RingModel.get_fighting_skill: weight * len(name) + reach / 10 + modifier. -/
def get_fighting_skill (b : Boxer) : ℚ :=
  (b.weight : ℚ) * (b.name.length : ℚ) + b.reach / 10 + (ageModifier b.age : ℚ)

/-- Logistic normalisation of the absolute skill difference,
1 / (1 + e ** (-delta)) with delta = abs(skill_1 - skill_2). -/
noncomputable def normalized_delta (s1 s2 : ℚ) : ℝ :=
  1 / (1 + Real.exp (-|(s1 : ℝ) - (s2 : ℝ)|))

open Classical in
/-- Winner and loser selection of RingModel.fight: boxer_1 wins when the random
draw is below the normalised delta, boxer_2 otherwise. -/
noncomputable def fightPair (b1 b2 : Boxer) (r : ℝ) : Boxer × Boxer :=
  if r < normalized_delta (get_fighting_skill b1) (get_fighting_skill b2) then (b1, b2)
  else (b2, b1)

/-- RingModel.fight: occupancy check, unpack the two boxers, decide the winner
from the random draw `r`, record the win of the winner then the loss of the
loser, clear the ring, return the winner name.  A raised error leaves the ring
untouched and keeps whatever stat writes already committed. -/
noncomputable def fight (st : RingModel) (db : Db) (r : ℝ) :
    Except Err String × RingModel × Db :=
  if st.ring.length < 2 then (.error (.valueError .needTwoBoxers), st, db)
  else
    match st.ring with
    | [b1, b2] =>
        let wl := fightPair b1 b2 r
        match update_boxer_stats db wl.1.id "win" with
        | (.error e, db1) => (.error e, st, db1)
        | (.ok _, db1) =>
            match update_boxer_stats db1 wl.2.id "loss" with
            | (.error e, db2) => (.error e, st, db2)
            | (.ok _, db2) => (.ok wl.1.name, clear_ring st, db2)
    | _ => (.error (.valueError .unpackError), st, db)

/-- Ring states reachable from the empty ring by enter, clear and fight. -/
inductive Reachable : RingModel → Prop where
  | empty : Reachable ⟨[]⟩
  | stepEnter (s : RingModel) (b : Boxer) : Reachable s → Reachable (enter_ring s b).2
  | stepClear (s : RingModel) : Reachable s → Reachable (clear_ring s)
  | stepFight (s : RingModel) (db : Db) (r : ℝ) : Reachable s → Reachable (fight s db r).2.1

/-- C3: for every weight w, get_weight_class returns HEAVYWEIGHT iff w ≥ 203,
MIDDLEWEIGHT iff 166 ≤ w < 203, LIGHTWEIGHT iff 133 ≤ w < 166, FEATHERWEIGHT
iff 125 ≤ w < 133, and raises a validation error for every w < 125.  It is a
pure function of w (modelled as a Lean function, with no state argument or
state result). -/
theorem weight_class_bands (w : ℤ) :
    (get_weight_class w = .ok "HEAVYWEIGHT" ↔ 203 ≤ w)
    ∧ (get_weight_class w = .ok "MIDDLEWEIGHT" ↔ 166 ≤ w ∧ w < 203)
    ∧ (get_weight_class w = .ok "LIGHTWEIGHT" ↔ 133 ≤ w ∧ w < 166)
    ∧ (get_weight_class w = .ok "FEATHERWEIGHT" ↔ 125 ≤ w ∧ w < 133)
    ∧ (w < 125 → get_weight_class w = .error (.valueError (.weightClassInvalid w))) := by
  unfold get_weight_class
  split_ifs with h1 h2 h3 h4 <;>
    refine ⟨?_, ?_, ?_, ?_, ?_⟩ <;>
    simp_all <;> omega

/-- Witness for C3 at concrete weights 210 and 100. -/
theorem weight_class_bands_witness :
    get_weight_class 210 = .ok "HEAVYWEIGHT"
    ∧ get_weight_class 100 = .error (.valueError (.weightClassInvalid 100)) :=
  ⟨(weight_class_bands 210).1.mpr (by decide),
   (weight_class_bands 100).2.2.2.2 (by decide)⟩

lemma get_weight_class_of_lt (w : ℤ) (h : w < 125) :
    get_weight_class w = .error (.valueError (.weightClassInvalid w)) := by
  unfold get_weight_class
  split_ifs with h1 h2 h3 h4 <;> first | rfl | omega

lemma get_weight_class_ok_ge (w : ℤ) (s : String) (h : get_weight_class w = .ok s) :
    125 ≤ w := by
  by_contra hlt
  rw [get_weight_class_of_lt w (by omega)] at h
  exact Except.noConfusion h

lemma mkBoxer_of_lt (id : ℤ) (name : String) (w h : ℤ) (reach : ℚ) (age : ℤ)
    (hw : w < 125) :
    mkBoxer id name w h reach age = .error (.valueError (.weightClassInvalid w)) := by
  unfold mkBoxer
  rw [get_weight_class_of_lt w hw]

/-- C10: constructing a Boxer value with weight below 125 raises (the
constructor recomputes the weight class), every constructed Boxer satisfies
weight_class = get_weight_class weight (hence weight ≥ 125), and getById /
getByName raise rather than return a Boxer when the weight of the stored row is
below 125. -/
theorem boxer_weight_class_invariant :
    (∀ (id : ℤ) (name : String) (w h : ℤ) (reach : ℚ) (age : ℤ), w < 125 →
       mkBoxer id name w h reach age = .error (.valueError (.weightClassInvalid w)))
    ∧ (∀ (id : ℤ) (name : String) (w h : ℤ) (reach : ℚ) (age : ℤ) (b : Boxer),
       mkBoxer id name w h reach age = .ok b →
       get_weight_class b.weight = .ok b.weight_class ∧ 125 ≤ b.weight)
    ∧ (∀ (db : Db) (boxer_id : ℤ) (row : BoxerRow),
       db.rows.find? (fun q => q.id = boxer_id) = some row → row.weight < 125 →
       get_boxer_by_id db boxer_id = .error (.valueError (.weightClassInvalid row.weight)))
    ∧ (∀ (db : Db) (nm : String) (row : BoxerRow),
       db.rows.find? (fun q => q.name = nm) = some row → row.weight < 125 →
       get_boxer_by_name db nm = .error (.valueError (.weightClassInvalid row.weight))) := by
  refine ⟨fun id name w h reach age hw => mkBoxer_of_lt id name w h reach age hw,
          fun id name w h reach age b hb => ?_, fun db boxer_id row hfind hw => ?_,
          fun db nm row hfind hw => ?_⟩
  · unfold mkBoxer at hb
    cases hwc : get_weight_class w with
    | ok wc =>
        rw [hwc] at hb
        cases hb
        exact ⟨hwc, get_weight_class_ok_ge w wc hwc⟩
    | error e =>
        rw [hwc] at hb
        exact Except.noConfusion hb
  · unfold get_boxer_by_id
    rw [hfind]
    exact mkBoxer_of_lt row.id row.name row.weight row.height row.reach row.age hw
  · unfold get_boxer_by_name
    rw [hfind]
    exact mkBoxer_of_lt row.id row.name row.weight row.height row.reach row.age hw

/-- Witness for C10: a weight-100 construction raises, a weight-130 one yields
weight_class FEATHERWEIGHT, and lookup of a stored weight-100 row raises. -/
theorem boxer_weight_class_invariant_witness :
    mkBoxer 1 "Kid" 100 70 70 25 = .error (.valueError (.weightClassInvalid 100))
    ∧ (get_weight_class (130 : ℤ) = .ok ((⟨1, "Kid", 130, 70, 70, 25, "FEATHERWEIGHT"⟩ : Boxer).weight_class)
        ∧ (125 : ℤ) ≤ 130)
    ∧ get_boxer_by_id ⟨[⟨1, "Kid", 100, 70, 70, 25, 3, 2⟩]⟩ 1 =
        .error (.valueError (.weightClassInvalid 100)) :=
  ⟨boxer_weight_class_invariant.1 1 "Kid" 100 70 70 25 (by decide),
   by
     have h := boxer_weight_class_invariant.2.1 1 "Kid" 130 70 70 25
       ⟨1, "Kid", 130, 70, 70, 25, "FEATHERWEIGHT"⟩ rfl
     exact h,
   boxer_weight_class_invariant.2.2.1 ⟨[⟨1, "Kid", 100, 70, 70, 25, 3, 2⟩]⟩ 1
     ⟨1, "Kid", 100, 70, 70, 25, 3, 2⟩ (by decide) (by decide)⟩

lemma any_id_true {db : Db} {boxer_id : ℤ} (h : ∃ q ∈ db.rows, q.id = boxer_id) :
    db.rows.any (fun q => q.id = boxer_id) = true := by
  simp only [List.any_eq_true, decide_eq_true_eq]
  exact h

lemma any_id_false {db : Db} {boxer_id : ℤ} (h : ∀ q ∈ db.rows, q.id ≠ boxer_id) :
    db.rows.any (fun q => q.id = boxer_id) = false := by
  simp only [List.any_eq_false, decide_eq_true_eq]
  exact h

lemma update_win_ok (db : Db) (boxer_id : ℤ) (h : ∃ q ∈ db.rows, q.id = boxer_id) :
    update_boxer_stats db boxer_id "win" = (.ok (), ⟨db.rows.map (winStep boxer_id)⟩) := by
  unfold update_boxer_stats
  rw [if_neg (by simp), if_pos (any_id_true h), if_pos rfl]

lemma update_loss_ok (db : Db) (boxer_id : ℤ) (h : ∃ q ∈ db.rows, q.id = boxer_id) :
    update_boxer_stats db boxer_id "loss" = (.ok (), ⟨db.rows.map (lossStep boxer_id)⟩) := by
  unfold update_boxer_stats
  rw [if_neg (by simp), if_pos (any_id_true h), if_neg (by simp)]

lemma update_notfound (db : Db) (boxer_id : ℤ) (res : String)
    (hres : res = "win" ∨ res = "loss") (h : ∀ q ∈ db.rows, q.id ≠ boxer_id) :
    update_boxer_stats db boxer_id res = (.error (.valueError (.idNotFound boxer_id)), db) := by
  unfold update_boxer_stats
  rw [if_neg (not_not_intro hres)]
  rw [if_neg (by simp [any_id_false h])]

/-- C4: for a boxer present in the store, update_boxer_stats with "win"
increments the fight and win counters of that boxer each by exactly 1, with "loss"
increments only the fight counter; rows with another id are untouched; for an
id matching no row it fails with the not-found error and the store is
unchanged. -/
theorem record_result_updates (db : Db) (boxer_id : ℤ) :
    ((∃ q ∈ db.rows, q.id = boxer_id) →
       update_boxer_stats db boxer_id "win" = (.ok (), ⟨db.rows.map (winStep boxer_id)⟩)
       ∧ update_boxer_stats db boxer_id "loss" = (.ok (), ⟨db.rows.map (lossStep boxer_id)⟩))
    ∧ (∀ q : BoxerRow, q.id = boxer_id →
         (winStep boxer_id q).fights = q.fights + 1 ∧ (winStep boxer_id q).wins = q.wins + 1
         ∧ (lossStep boxer_id q).fights = q.fights + 1 ∧ (lossStep boxer_id q).wins = q.wins)
    ∧ (∀ q : BoxerRow, q.id ≠ boxer_id → winStep boxer_id q = q ∧ lossStep boxer_id q = q)
    ∧ ((∀ q ∈ db.rows, q.id ≠ boxer_id) → ∀ res, res = "win" ∨ res = "loss" →
       update_boxer_stats db boxer_id res = (.error (.valueError (.idNotFound boxer_id)), db)) := by
  refine ⟨fun h => ⟨update_win_ok db boxer_id h, update_loss_ok db boxer_id h⟩,
          fun q hq => ?_, fun q hq => ?_,
          fun h res hres => update_notfound db boxer_id res hres h⟩
  · unfold winStep lossStep
    rw [if_pos hq, if_pos hq]
    exact ⟨rfl, rfl, rfl, rfl⟩
  · unfold winStep lossStep
    rw [if_neg hq, if_neg hq]
    exact ⟨rfl, rfl⟩

/-- Boxer row fixtures used by the concrete witnesses. -/
def rowA : BoxerRow := ⟨1, "Ali", 130, 70, 70, 25, 2, 1⟩

/-- Second boxer row fixture. -/
def rowB : BoxerRow := ⟨2, "Bob", 140, 75, 72, 30, 5, 3⟩

/-- Two-row store fixture. -/
def dbAB : Db := ⟨[rowA, rowB]⟩

/-- Witness for C4 on the two-row store: a win update maps the rows, an update
of an absent id 99 fails leaving the store unchanged. -/
theorem record_result_updates_witness :
    update_boxer_stats dbAB 1 "win" = (.ok (), ⟨dbAB.rows.map (winStep 1)⟩)
    ∧ (winStep 1 rowA).fights = rowA.fights + 1 ∧ (winStep 1 rowA).wins = rowA.wins + 1
    ∧ winStep 1 rowB = rowB
    ∧ update_boxer_stats dbAB 99 "loss" = (.error (.valueError (.idNotFound 99)), dbAB) :=
  ⟨((record_result_updates dbAB 1).1 ⟨rowA, by decide, by decide⟩).1,
   ((record_result_updates dbAB 1).2.1 rowA (by decide)).1,
   ((record_result_updates dbAB 1).2.1 rowA (by decide)).2.1,
   ((record_result_updates dbAB 1).2.2.1 rowB (by decide)).1,
   (record_result_updates dbAB 99).2.2.2 (by decide) "loss" (Or.inr rfl)⟩

lemma any_name_true {db : Db} {name : String} (h : ∃ q ∈ db.rows, q.name = name) :
    db.rows.any (fun q => q.name = name) = true := by
  simp only [List.any_eq_true, decide_eq_true_eq]
  exact h

lemma any_name_false {db : Db} {name : String} (h : ∀ q ∈ db.rows, q.name ≠ name) :
    db.rows.any (fun q => q.name = name) = false := by
  simp only [List.any_eq_false, decide_eq_true_eq]
  exact h

/-- C2 (amended): for every input with weight ≥ 125, height > 0, reach > 0,
18 ≤ age ≤ 40 and a fresh name, create_boxer appends exactly one row whose
fight and win counters are 0 and whose id is the next rowid of the store — and it
returns None (the Python function is `-> None`), not the new identifier. -/
theorem create_inserts_record (db : Db) (name : String) (w h : ℤ) (reach : ℚ) (age : ℤ)
    (hw : 125 ≤ w) (hh : 0 < h) (hr : 0 < reach) (ha : 18 ≤ age ∧ age ≤ 40)
    (hname : ∀ q ∈ db.rows, q.name ≠ name) :
    create_boxer db name w h reach age =
      (.ok none, ⟨db.rows ++ [⟨nextId db, name, w, h, reach, age, 0, 0⟩]⟩) := by
  unfold create_boxer dbInsert
  rw [if_neg (by omega), if_neg (by omega), if_neg (not_le.mpr hr), if_neg (not_not_intro ha)]
  simp only [any_name_false hname, Bool.false_eq_true, if_false]

/-- Counterexample to C2 as stated: on the empty store, a valid create call
inserts the row with identifier 1, yet its Python return value is None, not
the identifier 1. -/
theorem create_returns_none_counterexample :
    (create_boxer ⟨[]⟩ "Ali" 130 70 70 25).1 = .ok none
    ∧ (create_boxer ⟨[]⟩ "Ali" 130 70 70 25).2.rows.map BoxerRow.id = [1]
    ∧ (Except.ok (none : Option ℤ) : Except Err (Option ℤ)) ≠ .ok (some 1) :=
  ⟨rfl, rfl, fun hcontra => Option.noConfusion (Except.ok.inj hcontra)⟩

/-- Witness for the amended C2 on the empty store. -/
theorem create_inserts_record_witness :
    create_boxer ⟨[]⟩ "Ali" 130 70 70 25 =
      (.ok none, ⟨[⟨1, "Ali", 130, 70, 70, 25, 0, 0⟩]⟩) :=
  create_inserts_record ⟨[]⟩ "Ali" 130 70 70 25 (by decide) (by decide) (by decide)
    (by decide) (by decide)

/-- C8: with otherwise-valid inputs and a name already present, create_boxer
always fails with the duplicate-name conflict (never one of the field
validation errors), and the error of the `IntegrityError` handler is the
identical value (and identical rendered message) as the error of the explicit
pre-insert existence check. -/
theorem create_duplicate_conflict (db : Db) (name : String) (w h : ℤ) (reach : ℚ) (age : ℤ)
    (hw : 125 ≤ w) (hh : 0 < h) (hr : 0 < reach) (ha : 18 ≤ age ∧ age ≤ 40)
    (hdup : ∃ q ∈ db.rows, q.name = name) :
    create_boxer db name w h reach age = (.error (.valueError (.duplicateName name)), db)
    ∧ (∀ nm : String, integrityDuplicateErr nm = precheckDuplicateErr nm
         ∧ (integrityDuplicateErr nm).render = (precheckDuplicateErr nm).render) := by
  constructor
  · unfold create_boxer
    rw [if_neg (by omega), if_neg (by omega), if_neg (not_le.mpr hr), if_neg (not_not_intro ha)]
    simp only [any_name_true hdup, if_true]
    rfl
  · exact fun nm => ⟨rfl, rfl⟩

/-- Witness for C8: creating a second "Ali" on a store already holding one. -/
theorem create_duplicate_conflict_witness :
    create_boxer ⟨[⟨1, "Ali", 130, 70, 70, 25, 0, 0⟩]⟩ "Ali" 180 71 68 30 =
      (.error (.valueError (.duplicateName "Ali")), ⟨[⟨1, "Ali", 130, 70, 70, 25, 0, 0⟩]⟩)
    ∧ integrityDuplicateErr "Ali" = precheckDuplicateErr "Ali" :=
  ⟨(create_duplicate_conflict ⟨[⟨1, "Ali", 130, 70, 70, 25, 0, 0⟩]⟩ "Ali" 180 71 68 30
      (by decide) (by decide) (by decide) (by decide)
      ⟨⟨1, "Ali", 130, 70, 70, 25, 0, 0⟩, by decide, by decide⟩).1,
   ((create_duplicate_conflict ⟨[⟨1, "Ali", 130, 70, 70, 25, 0, 0⟩]⟩ "Ali" 180 71 68 30
      (by decide) (by decide) (by decide) (by decide)
      ⟨⟨1, "Ali", 130, 70, 70, 25, 0, 0⟩, by decide, by decide⟩).2 "Ali").1⟩

lemma clear_ring_eq (s : RingModel) : clear_ring s = ⟨[]⟩ := by
  unfold clear_ring
  split
  · rename_i hempty
    obtain ⟨ring⟩ := s
    simp only [List.isEmpty_iff] at hempty
    subst hempty
    rfl
  · rfl

lemma fight_two_eq (A B : Boxer) (db : Db) (r : ℝ) :
    fight ⟨[A, B]⟩ db r =
      match update_boxer_stats db (fightPair A B r).1.id "win" with
      | (.error e, db1) => (.error e, ⟨[A, B]⟩, db1)
      | (.ok _, db1) =>
          match update_boxer_stats db1 (fightPair A B r).2.id "loss" with
          | (.error e, db2) => (.error e, ⟨[A, B]⟩, db2)
          | (.ok _, db2) => (.ok (fightPair A B r).1.name, ⟨[]⟩, db2) := rfl

lemma fight_cases (A B : Boxer) (db : Db) (r : ℝ) :
    (∀ (e : Err) (db1 : Db),
       update_boxer_stats db (fightPair A B r).1.id "win" = (.error e, db1) →
       fight ⟨[A, B]⟩ db r = (.error e, ⟨[A, B]⟩, db1))
    ∧ (∀ db1 : Db, update_boxer_stats db (fightPair A B r).1.id "win" = (.ok (), db1) →
        (∀ (e : Err) (db2 : Db),
           update_boxer_stats db1 (fightPair A B r).2.id "loss" = (.error e, db2) →
           fight ⟨[A, B]⟩ db r = (.error e, ⟨[A, B]⟩, db2))
        ∧ (∀ db2 : Db,
           update_boxer_stats db1 (fightPair A B r).2.id "loss" = (.ok (), db2) →
           fight ⟨[A, B]⟩ db r = (.ok (fightPair A B r).1.name, ⟨[]⟩, db2))) := by
  refine ⟨fun e db1 h1 => ?_, fun db1 h1 => ⟨fun e db2 h2 => ?_, fun db2 h2 => ?_⟩⟩
  · rw [fight_two_eq]
    split <;> simp_all
  · rw [fight_two_eq]
    split <;> simp_all
  · rw [fight_two_eq]
    split <;> simp_all

lemma fight_state_cases (s : RingModel) (db : Db) (r : ℝ) :
    (fight s db r).2.1 = s ∨ (fight s db r).2.1 = ⟨[]⟩ := by
  obtain ⟨ring⟩ := s
  rcases ring with _ | ⟨a, _ | ⟨b, _ | ⟨c, rest⟩⟩⟩
  · exact Or.inl rfl
  · exact Or.inl rfl
  · rcases hu1 : update_boxer_stats db (fightPair a b r).1.id "win" with ⟨res1, db1⟩
    rcases res1 with e | u
    · rw [(fight_cases a b db r).1 e db1 hu1]
      exact Or.inl rfl
    · cases u
      rcases hu2 : update_boxer_stats db1 (fightPair a b r).2.id "loss" with ⟨res2, db2⟩
      rcases res2 with e | u
      · rw [((fight_cases a b db r).2 db1 hu1).1 e db2 hu2]
        exact Or.inl rfl
      · cases u
        rw [((fight_cases a b db r).2 db1 hu1).2 db2 hu2]
        exact Or.inr rfl
  · exact Or.inl rfl

/-- C5: every ring state reachable from the empty ring by enter, clear and
fight holds at most two occupants; enter appends when the count is below 2 and
fails with the capacity error, leaving the ring unchanged, whenever the count
is already 2 (whatever the occupants are). -/
theorem ring_capacity_invariant :
    (∀ s : RingModel, Reachable s → s.ring.length ≤ 2)
    ∧ (∀ (s : RingModel) (b : Boxer), s.ring.length < 2 →
         enter_ring s b = (.ok (), ⟨s.ring ++ [b]⟩))
    ∧ (∀ (s : RingModel) (b : Boxer), 2 ≤ s.ring.length →
         enter_ring s b = (.error (.valueError .ringFull), s)) := by
  refine ⟨?_, ?_, ?_⟩
  · intro s hs
    induction hs with
    | empty => simp
    | stepEnter s b hs ih =>
        by_cases hc : 2 ≤ s.ring.length
        · rw [show enter_ring s b = (.error (.valueError .ringFull), s) from by
            unfold enter_ring; rw [if_pos hc]]
          exact ih
        · rw [show enter_ring s b = (.ok (), ⟨s.ring ++ [b]⟩) from by
            unfold enter_ring; rw [if_neg hc]]
          simp only [List.length_append, List.length_cons, List.length_nil]
          omega
    | stepClear s hs ih =>
        rw [clear_ring_eq]
        simp
    | stepFight s db r hs ih =>
        rcases fight_state_cases s db r with h | h <;> rw [h]
        · exact ih
        · simp
  · intro s b hlen
    unfold enter_ring
    rw [if_neg (by omega)]
  · intro s b hlen
    unfold enter_ring
    rw [if_pos hlen]

/-- Boxer fixture entering the ring in the witnesses. -/
def boxerA : Boxer := ⟨1, "Ali", 130, 70, 70, 25, "FEATHERWEIGHT"⟩

/-- Second boxer fixture. -/
def boxerB : Boxer := ⟨2, "Bob", 140, 75, 72, 30, "LIGHTWEIGHT"⟩

/-- Witness for C5: the reachable one-boxer ring is within capacity; a second
enter appends; a third enter fails with the capacity error. -/
theorem ring_capacity_invariant_witness :
    ((enter_ring ⟨[]⟩ boxerA).2).ring.length ≤ 2
    ∧ enter_ring ⟨[boxerA]⟩ boxerB = (.ok (), ⟨[boxerA, boxerB]⟩)
    ∧ enter_ring ⟨[boxerA, boxerB]⟩ boxerA = (.error (.valueError .ringFull), ⟨[boxerA, boxerB]⟩) :=
  ⟨ring_capacity_invariant.1 _ (Reachable.stepEnter ⟨[]⟩ boxerA Reachable.empty),
   ring_capacity_invariant.2.1 ⟨[boxerA]⟩ boxerB (by decide),
   ring_capacity_invariant.2.2 ⟨[boxerA, boxerB]⟩ boxerA (by decide)⟩

lemma update_error_forms (db : Db) (boxer_id : ℤ) (res : String) (e : Err) (db1 : Db)
    (h : update_boxer_stats db boxer_id res = (.error e, db1)) :
    e = .valueError (.invalidResult res) ∨ e = .valueError (.idNotFound boxer_id) := by
  unfold update_boxer_stats at h
  split_ifs at h <;> simp_all

lemma update_error_db (db : Db) (boxer_id : ℤ) (res : String) (e : Err) (db1 : Db)
    (h : update_boxer_stats db boxer_id res = (.error e, db1)) : db1 = db := by
  unfold update_boxer_stats at h
  split_ifs at h <;> simp_all

/-- C6: fight on a ring with fewer than two occupants raises the exact
two-boxers validation error and leaves both the ring and the store exactly as
they were (no stat writes, no clearing); with exactly two occupants, fight
never raises that validation error. -/
theorem fight_requires_two :
    (∀ (s : RingModel) (db : Db) (r : ℝ), s.ring.length < 2 →
       fight s db r = (.error (.valueError .needTwoBoxers), s, db))
    ∧ (∀ (A B : Boxer) (db : Db) (r : ℝ),
       (fight ⟨[A, B]⟩ db r).1 ≠ .error (.valueError .needTwoBoxers)) := by
  constructor
  · intro s db r hlen
    unfold fight
    rw [if_pos hlen]
  · intro A B db r
    rcases hu1 : update_boxer_stats db (fightPair A B r).1.id "win" with ⟨res1, db1⟩
    rcases res1 with e | u
    · rw [(fight_cases A B db r).1 e db1 hu1]
      rcases update_error_forms db _ "win" e db1 hu1 with he | he <;> subst he <;> simp
    · cases u
      rcases hu2 : update_boxer_stats db1 (fightPair A B r).2.id "loss" with ⟨res2, db2⟩
      rcases res2 with e | u
      · rw [((fight_cases A B db r).2 db1 hu1).1 e db2 hu2]
        rcases update_error_forms db1 _ "loss" e db2 hu2 with he | he <;> subst he <;> simp
      · cases u
        rw [((fight_cases A B db r).2 db1 hu1).2 db2 hu2]
        simp

/-- Witness for C6: a one-boxer ring fails untouched; a two-boxer ring never
produces the two-boxers error. -/
theorem fight_requires_two_witness :
    fight ⟨[boxerA]⟩ dbAB 0 = (.error (.valueError .needTwoBoxers), ⟨[boxerA]⟩, dbAB)
    ∧ (fight ⟨[boxerA, boxerB]⟩ dbAB 0).1 ≠ .error (.valueError .needTwoBoxers) :=
  ⟨fight_requires_two.1 ⟨[boxerA]⟩ dbAB 0 (by decide),
   fight_requires_two.2 boxerA boxerB dbAB 0⟩

/-- C7: in a two-boxer fight the side effects happen in this order — the
win of the winner is recorded on the store, the loss of the loser is recorded on the
store resulting from that first write, then the ring is cleared and the
winner name returned; if either stat update fails the error propagates, the
ring still holds its two occupants, and the store is the one the failing call
returned (so the first write may already have applied; a failing update itself
leaves its input store unchanged). -/
theorem fight_effect_order (A B : Boxer) (db : Db) (r : ℝ) :
    (∀ db1 db2 : Db,
       update_boxer_stats db (fightPair A B r).1.id "win" = (.ok (), db1) →
       update_boxer_stats db1 (fightPair A B r).2.id "loss" = (.ok (), db2) →
       fight ⟨[A, B]⟩ db r = (.ok (fightPair A B r).1.name, ⟨[]⟩, db2))
    ∧ (∀ (e : Err) (db1 : Db),
       update_boxer_stats db (fightPair A B r).1.id "win" = (.error e, db1) →
       fight ⟨[A, B]⟩ db r = (.error e, ⟨[A, B]⟩, db1))
    ∧ (∀ (db1 : Db) (e : Err) (db2 : Db),
       update_boxer_stats db (fightPair A B r).1.id "win" = (.ok (), db1) →
       update_boxer_stats db1 (fightPair A B r).2.id "loss" = (.error e, db2) →
       fight ⟨[A, B]⟩ db r = (.error e, ⟨[A, B]⟩, db2))
    ∧ (∀ (d : Db) (i : ℤ) (res : String) (e : Err) (d1 : Db),
       update_boxer_stats d i res = (.error e, d1) → d1 = d) :=
  ⟨fun db1 db2 h1 h2 => ((fight_cases A B db r).2 db1 h1).2 db2 h2,
   fun e db1 h1 => (fight_cases A B db r).1 e db1 h1,
   fun db1 e db2 h1 h2 => ((fight_cases A B db r).2 db1 h1).1 e db2 h2,
   fun d i res e d1 h => update_error_db d i res e d1 h⟩

lemma normalized_delta_pos (s1 s2 : ℚ) : (0 : ℝ) < normalized_delta s1 s2 := by
  unfold normalized_delta
  positivity

lemma fightPair_zero (b1 b2 : Boxer) : fightPair b1 b2 0 = (b1, b2) := by
  unfold fightPair
  exact if_pos (normalized_delta_pos _ _)

/-- Witness for C7 on the success path: boxer Ali (id 1) beats Bob (id 2) at
r = 0; the row of Ali gains a fight and a win, the row of Bob gains only a fight, and
the ring ends empty. -/
theorem fight_effect_order_witness :
    fight ⟨[boxerA, boxerB]⟩ dbAB 0 =
      (.ok "Ali", ⟨[]⟩, ⟨[⟨1, "Ali", 130, 70, 70, 25, 3, 2⟩, ⟨2, "Bob", 140, 75, 72, 30, 6, 3⟩]⟩) := by
  have h1 : update_boxer_stats dbAB (fightPair boxerA boxerB 0).1.id "win" =
      (.ok (), ⟨[⟨1, "Ali", 130, 70, 70, 25, 3, 2⟩, ⟨2, "Bob", 140, 75, 72, 30, 5, 3⟩]⟩) := by
    rw [fightPair_zero]
    rfl
  have h2 : update_boxer_stats ⟨[⟨1, "Ali", 130, 70, 70, 25, 3, 2⟩, ⟨2, "Bob", 140, 75, 72, 30, 5, 3⟩]⟩
      (fightPair boxerA boxerB 0).2.id "loss" =
      (.ok (), ⟨[⟨1, "Ali", 130, 70, 70, 25, 3, 2⟩, ⟨2, "Bob", 140, 75, 72, 30, 6, 3⟩]⟩) := by
    rw [fightPair_zero]
    rfl
  have h := (fight_effect_order boxerA boxerB dbAB 0).1 _ _ h1 h2
  rw [fightPair_zero] at h
  exact h

lemma winStep_id (boxer_id : ℤ) (q : BoxerRow) : (winStep boxer_id q).id = q.id := by
  unfold winStep
  split <;> rfl

lemma lossStep_id (boxer_id : ℤ) (q : BoxerRow) : (lossStep boxer_id q).id = q.id := by
  unfold lossStep
  split <;> rfl

lemma mem_ids_map_winStep {db : Db} {i : ℤ} (boxer_id : ℤ) (h : ∃ q ∈ db.rows, q.id = i) :
    ∃ q ∈ (⟨db.rows.map (winStep boxer_id)⟩ : Db).rows, q.id = i := by
  obtain ⟨q, hq, hid⟩ := h
  exact ⟨winStep boxer_id q, List.mem_map_of_mem _ hq, by rw [winStep_id]; exact hid⟩

/-- C1: with exactly two occupants A (first) and B (second) both present in
the store, fight declares A the winner precisely when the random draw r is
below 1 / (1 + e ^ (-|skill(A) - skill(B)|)) and B the winner otherwise,
returning the winner name; the skill formula is
weight * (character length of name) + reach / 10 + ageModifier with modifier
-1 below age 25, -2 above age 35, else 0; equal skills make the threshold
exactly 1/2. -/
theorem fight_outcome (A B : Boxer) (db : Db) (r : ℝ)
    (hA : ∃ q ∈ db.rows, q.id = A.id) (hB : ∃ q ∈ db.rows, q.id = B.id) :
    ((r < 1 / (1 + Real.exp (-|((get_fighting_skill A : ℚ) : ℝ) - ((get_fighting_skill B : ℚ) : ℝ)|)) →
        (fight ⟨[A, B]⟩ db r).1 = .ok A.name)
     ∧ (¬ r < 1 / (1 + Real.exp (-|((get_fighting_skill A : ℚ) : ℝ) - ((get_fighting_skill B : ℚ) : ℝ)|)) →
        (fight ⟨[A, B]⟩ db r).1 = .ok B.name))
    ∧ (∀ x : Boxer, get_fighting_skill x =
         (x.weight : ℚ) * (x.name.length : ℚ) + x.reach / 10
           + ((if x.age < 25 then (-1 : ℤ) else if 35 < x.age then -2 else 0) : ℚ))
    ∧ (get_fighting_skill A = get_fighting_skill B →
        1 / (1 + Real.exp (-|((get_fighting_skill A : ℚ) : ℝ) - ((get_fighting_skill B : ℚ) : ℝ)|))
          = 1 / 2) := by
  refine ⟨⟨fun hr => ?_, fun hr => ?_⟩,
          fun x => by unfold get_fighting_skill ageModifier; split_ifs <;> norm_num,
          fun hEq => ?_⟩
  · have hp : fightPair A B r = (A, B) := by
      unfold fightPair
      exact if_pos hr
    have h1 : update_boxer_stats db (fightPair A B r).1.id "win" =
        (.ok (), ⟨db.rows.map (winStep A.id)⟩) := by
      rw [hp]
      exact update_win_ok db A.id hA
    have hB1 := mem_ids_map_winStep A.id hB
    have h2 : update_boxer_stats ⟨db.rows.map (winStep A.id)⟩ (fightPair A B r).2.id "loss" =
        (.ok (), ⟨(db.rows.map (winStep A.id)).map (lossStep B.id)⟩) := by
      rw [hp]
      exact update_loss_ok _ B.id hB1
    have h := ((fight_cases A B db r).2 _ h1).2 _ h2
    rw [h, hp]
  · have hp : fightPair A B r = (B, A) := by
      unfold fightPair
      exact if_neg hr
    have h1 : update_boxer_stats db (fightPair A B r).1.id "win" =
        (.ok (), ⟨db.rows.map (winStep B.id)⟩) := by
      rw [hp]
      exact update_win_ok db B.id hB
    have hA1 := mem_ids_map_winStep B.id hA
    have h2 : update_boxer_stats ⟨db.rows.map (winStep B.id)⟩ (fightPair A B r).2.id "loss" =
        (.ok (), ⟨(db.rows.map (winStep B.id)).map (lossStep A.id)⟩) := by
      rw [hp]
      exact update_loss_ok _ A.id hA1
    have h := ((fight_cases A B db r).2 _ h1).2 _ h2
    rw [h, hp]
  · rw [hEq]
    simp [Real.exp_zero]
    norm_num

/-- Witness for C1: at r = 0 (below the always-positive threshold) the first
occupant Ali wins. -/
theorem fight_outcome_witness :
    (fight ⟨[boxerA, boxerB]⟩ dbAB 0).1 = .ok "Ali" :=
  (fight_outcome boxerA boxerB dbAB 0 ⟨rowA, by decide, by decide⟩
    ⟨rowB, by decide, by decide⟩).1.1 (by positivity)

lemma get_weight_class_ok_of_ge (w : ℤ) (h : 125 ≤ w) : ∃ s, get_weight_class w = .ok s := by
  unfold get_weight_class
  split_ifs with h1 h2 h3
  · exact ⟨_, rfl⟩
  · exact ⟨_, rfl⟩
  · exact ⟨_, rfl⟩
  · exact ⟨_, rfl⟩

/-- Weight class as a total function, for rows that pass validation. -/
def wcOf (w : ℤ) : String :=
  match get_weight_class w with
  | .ok s => s
  | .error _ => ""

/-- The leaderboard dictionary built from a validated row. -/
def lbEntryOf (q : BoxerRow) : LBEntry :=
  ⟨q.id, q.name, q.weight, q.height, q.reach, q.age, wcOf q.weight, q.fights, q.wins,
   pyRound1 (winPctQ q * 100)⟩

lemma rowToEntry_ok (q : BoxerRow) (h : 125 ≤ q.weight) : rowToEntry q = .ok (lbEntryOf q) := by
  unfold rowToEntry lbEntryOf wcOf
  obtain ⟨s, hs⟩ := get_weight_class_ok_of_ge q.weight h
  rw [hs]

lemma mapM_ok {β : Type} (f : BoxerRow → Except Err β) (g : BoxerRow → β) :
    ∀ l : List BoxerRow, (∀ x ∈ l, f x = .ok (g x)) → l.mapM f = .ok (l.map g) := by
  intro l h
  induction l with
  | nil => rfl
  | cons a t ih =>
      rw [List.mapM_cons, h a (List.mem_cons_self a t),
        ih (fun x hx => h x (List.mem_cons_of_mem a hx))]
      rfl

instance : IsTotal BoxerRow winsDesc := ⟨fun a b => le_total b.wins a.wins⟩

instance : IsTrans BoxerRow winsDesc := ⟨fun _ _ _ hab hbc => le_trans hbc hab⟩

instance : IsTotal BoxerRow winPctDesc := ⟨fun a b => le_total (winPctQ b) (winPctQ a)⟩

instance : IsTrans BoxerRow winPctDesc := ⟨fun _ _ _ hab hbc => le_trans hbc hab⟩

lemma mem_filteredRows {db : Db} {q : BoxerRow} (h : q ∈ filteredRows db) :
    q ∈ db.rows ∧ 0 < q.fights := by
  unfold filteredRows at h
  rw [List.mem_filter, decide_eq_true_eq] at h
  exact h

/-- C9: the leaderboard lists exactly the boxers with a positive fight count,
each carrying win_pct = round(100 * wins / fights, 1), in descending order of
the requested key for sort keys "wins" and "win_pct", and fails with the
validation error for every other sort key.  (The store hypothesis — every row
with fights is at a valid weight — holds for every store built through
create_boxer, whose validation enforces weight ≥ 125.) -/
theorem leaderboard_spec (db : Db) (hw : ∀ q ∈ db.rows, 0 < q.fights → 125 ≤ q.weight) :
    (∀ k : String, k ≠ "wins" → k ≠ "win_pct" →
       get_leaderboard db k = .error (.valueError (.invalidSortBy k)))
    ∧ (∀ k : String, k = "wins" ∨ k = "win_pct" →
        ∃ l : List LBEntry, get_leaderboard db k = .ok l
          ∧ List.Perm (l.map LBEntry.id) ((filteredRows db).map BoxerRow.id)
          ∧ (∀ e ∈ l, 0 < e.fights
               ∧ e.win_pct = pyRound1 (100 * ((e.wins : ℚ) / (e.fights : ℚ))))
          ∧ (k = "wins" → l.Pairwise (fun e1 e2 => e2.wins ≤ e1.wins))
          ∧ (k = "win_pct" → l.Pairwise (fun e1 e2 =>
               (e2.wins : ℚ) / (e2.fights : ℚ) ≤ (e1.wins : ℚ) / (e1.fights : ℚ)))) := by
  constructor
  · intro k h1 h2
    unfold get_leaderboard
    rw [if_neg h2, if_neg h1]
  · rintro k (rfl | rfl)
    · have hperm := List.perm_insertionSort winsDesc (filteredRows db)
      have hvalid : ∀ q ∈ List.insertionSort winsDesc (filteredRows db),
          125 ≤ q.weight ∧ 0 < q.fights := by
        intro q hq
        have hmem := mem_filteredRows (hperm.mem_iff.mp hq)
        exact ⟨hw q hmem.1 hmem.2, hmem.2⟩
      refine ⟨(List.insertionSort winsDesc (filteredRows db)).map lbEntryOf, ?_, ?_, ?_, ?_, ?_⟩
      · unfold get_leaderboard
        rw [if_neg (by decide), if_pos rfl]
        exact mapM_ok rowToEntry lbEntryOf _ (fun x hx => rowToEntry_ok x (hvalid x hx).1)
      · rw [List.map_map]
        exact hperm.map BoxerRow.id
      · rintro e he
        obtain ⟨q, hq, rfl⟩ := List.mem_map.mp he
        refine ⟨(hvalid q hq).2, ?_⟩
        unfold lbEntryOf winPctQ
        rw [mul_comm]
      · intro _
        exact List.pairwise_map.mpr (List.sorted_insertionSort winsDesc (filteredRows db))
      · intro hcontra
        exact absurd hcontra (by decide)
    · have hperm := List.perm_insertionSort winPctDesc (filteredRows db)
      have hvalid : ∀ q ∈ List.insertionSort winPctDesc (filteredRows db),
          125 ≤ q.weight ∧ 0 < q.fights := by
        intro q hq
        have hmem := mem_filteredRows (hperm.mem_iff.mp hq)
        exact ⟨hw q hmem.1 hmem.2, hmem.2⟩
      refine ⟨(List.insertionSort winPctDesc (filteredRows db)).map lbEntryOf, ?_, ?_, ?_, ?_, ?_⟩
      · unfold get_leaderboard
        rw [if_pos rfl]
        exact mapM_ok rowToEntry lbEntryOf _ (fun x hx => rowToEntry_ok x (hvalid x hx).1)
      · rw [List.map_map]
        exact hperm.map BoxerRow.id
      · rintro e he
        obtain ⟨q, hq, rfl⟩ := List.mem_map.mp he
        refine ⟨(hvalid q hq).2, ?_⟩
        unfold lbEntryOf winPctQ
        rw [mul_comm]
      · intro hcontra
        exact absurd hcontra (by decide)
      · intro _
        exact List.pairwise_map.mpr (List.sorted_insertionSort winPctDesc (filteredRows db))

/-- Witness for C9 on the two-row store: sorting by wins succeeds with the
claimed shape, an unknown sort key fails. -/
theorem leaderboard_spec_witness :
    (∃ l : List LBEntry, get_leaderboard dbAB "wins" = .ok l
       ∧ List.Perm (l.map LBEntry.id) ((filteredRows dbAB).map BoxerRow.id)
       ∧ (∀ e ∈ l, 0 < e.fights
            ∧ e.win_pct = pyRound1 (100 * ((e.wins : ℚ) / (e.fights : ℚ))))
       ∧ ("wins" = "wins" → l.Pairwise (fun e1 e2 => e2.wins ≤ e1.wins))
       ∧ ("wins" = "win_pct" → l.Pairwise (fun e1 e2 =>
            (e2.wins : ℚ) / (e2.fights : ℚ) ≤ (e1.wins : ℚ) / (e1.fights : ℚ))))
    ∧ get_leaderboard dbAB "total" = .error (.valueError (.invalidSortBy "total")) :=
  ⟨(leaderboard_spec dbAB (by decide)).2 "wins" (Or.inl rfl),
   (leaderboard_spec dbAB (by decide)).1 "total" (by decide) (by decide)⟩
